import Mathlib

/-!
Verification development for the telegram bulk downloader
(src/telegram_downloader.py). The script's pure decision logic — argument
conversion, message filtering, the per-message processing loop of
download_media, the top-level exception handling of the entry point — is
embedded as executable Lean definitions, and the documented behaviour is
proved or refuted about them. External effects (directory creation, file
writes, prints, the network call that downloads one media item) are
recorded as explicit events so that claims about what is or is not written
can be stated. Timestamps are modelled as integer seconds; one day is
86400 seconds.
-/

/-- Python truthiness of an optional string: None and the empty string are
falsy, every other string is truthy. Used for message.text, attr.file_name,
webpage.url, the contains argument and the environment credentials. -/
def pyTruthyStr (s : Option String) : Bool :=
  match s with
  | Option.none => false
  | some v => v != ""

/-- Python truthiness of an optional integer: None and 0 are falsy. Used
for args.entity_id and args.days. -/
def pyTruthyInt (n : Option Int) : Bool :=
  match n with
  | Option.none => false
  | some v => v != 0

/-- The value of the --media-type flag (argparse choices at line 226 of the
source). -/
inductive MediaType where
  | all
  | photos
  | documents
  | links
  | gifs
deriving DecidableEq

/-- The media attachment of a message, as the source distinguishes it:
MessageMediaPhoto (which has no document attribute), MessageMediaDocument
(whose optional document carries a list of attributes, each with an
optional file_name), MessageMediaWebPage (with an optional page url), or
no media at all (message.media is falsy). -/
inductive Media where
  | noMedia
  | photo
  | document (docAttrs : Option (List (Option String)))
  | webpage (url : Option String)
deriving DecidableEq

/-- A fetched message: timestamp (integer seconds), optional text, media
attachment, and the result the external client.download_media call would
return for it (the path of the saved file, or None) — the one external
outcome the loop body branches on. -/
structure Message where
  date : Int
  text : Option String
  media : Media
  downloadResult : Option String
deriving DecidableEq

/-- Whether the first list of characters occurs at the start of the second. -/
def startsWithChars : List Char → List Char → Bool
  | [], _ => true
  | _ :: _, [] => false
  | a :: as, b :: bs => a == b && startsWithChars as bs

/-- Whether the first list of characters occurs contiguously anywhere in
the second: the meaning of the Python substring test x in y. -/
def containsChars (needle : List Char) : List Char → Bool
  | [] => startsWithChars needle []
  | b :: bs => startsWithChars needle (b :: bs) || containsChars needle bs

/-- Case-insensitive substring test: needle.lower() in hay.lower() from
line 152 of the source. -/
def lowerContains (needle hay : String) : Bool :=
  containsChars needle.toLower.data hay.toLower.data

/-- The client-side contains filter of lines 150-152 of the source: when
the contains argument is truthy, keep only messages whose text is truthy
and contains the argument case-insensitively; otherwise pass the list
through unchanged. -/
def filterContains (contains : Option String) (messages : List Message) : List Message :=
  if pyTruthyStr contains then
    messages.filter
      (fun msg => pyTruthyStr msg.text && lowerContains (contains.getD "") (msg.text.getD ""))
  else
    messages

/-- Modelled from the spec: the server-side media filter handed to the
external fetch is an opaque predicate on messages (the source only selects
an opaque library value per media type at lines 131-140); applying it keeps
the messages it accepts. -/
def apply_media_filter (filt : Option (Message → Bool)) (msgs : List Message) : List Message :=
  match filt with
  | Option.none => msgs
  | some p => msgs.filter (fun m => p m)

/-- Modelled from the spec: the date restriction of the external fetch
keeps only messages with timestamp at or after the offset date, when one
is given. -/
def apply_offset_date (offsetDate : Option Int) (msgs : List Message) : List Message :=
  match offsetDate with
  | Option.none => msgs
  | some d => msgs.filter (fun m => decide (d ≤ m.date))

/-- Modelled from the spec: the fetch returns at most the given number of
messages; absent, it is unbounded. -/
def apply_limit (limit : Option Int) (msgs : List Message) : List Message :=
  match limit with
  | Option.none => msgs
  | some l => msgs.take l.toNat

/-- Modelled from the spec: the external client.get_messages call of lines
143-148 of the source, which is not part of this repository. Per the spec
it fetches up to limit messages (unbounded if the limit is absent),
restricted to those passing the server-side media filter and, when an
offset date is given, to messages at or after that date. -/
def get_messages (history : List Message) (limit : Option Int)
    (offsetDate : Option Int) (filt : Option (Message → Bool)) : List Message :=
  apply_limit limit (apply_offset_date offsetDate (apply_media_filter filt history))

/-- The messages the download loop will process: the fetched list after the
client-side contains filter (lines 143-152 of the source). -/
def candidate_messages (limit offsetDate : Option Int) (filt : Option (Message → Bool))
    (contains : Option String) (history : List Message) : List Message :=
  filterContains contains (get_messages history limit offsetDate filt)

/-- The offset-date computation of lines 266-268 of the source: when
args.days is truthy (nonzero), now minus that many days, else no cutoff. -/
def compute_offset_date (now : Int) (days : Option Int) : Option Int :=
  match days with
  | Option.none => Option.none
  | some d => if d = 0 then Option.none else some (now - d * 86400)

/-- The limit conversion of line 271 of the source: None if args.limit is
zero, else the limit itself. -/
def actual_limit (limit : Int) : Option Int :=
  if limit = 0 then Option.none else some limit

/-- One character of the URL body: the union of the alternatives of the
character class in the regular expression at line 199 of the source. The
percent-escape alternative never fires, because the range from dollar to
underscore already holds the percent sign and every hex digit, and the
alternation tries that range first; matching those characters one at a
time yields the same maximal run. -/
def isUrlChar (c : Char) : Bool :=
  (decide ('a' ≤ c) && decide (c ≤ 'z')) ||
  (decide ('A' ≤ c) && decide (c ≤ 'Z')) ||
  (decide ('0' ≤ c) && decide (c ≤ '9')) ||
  (decide ('$' ≤ c) && decide (c ≤ '_')) ||
  c == '!' || c == '*' || c == '\\' || c == '(' || c == ')' || c == ','

/-- One attempt of the URL regular expression at a fixed position: literal
http, an optional s, literal ://, then a maximal nonempty run of URL body
characters. Returns the matched text and the rest of the input. When the
character after http is s but :// does not follow, backtracking to the
empty optional cannot succeed either (s is not a colon), so returning no
match is faithful. -/
def matchUrlAt : List Char → Option (List Char × List Char)
  | 'h' :: 't' :: 't' :: 'p' :: rest =>
    let sSplit : List Char × List Char :=
      match rest with
      | 's' :: r => (['s'], r)
      | r => ([], r)
    match sSplit.2 with
    | ':' :: '/' :: '/' :: r3 =>
      let run := r3.takeWhile isUrlChar
      if run.isEmpty then Option.none
      else some ('h' :: 't' :: 't' :: 'p' :: sSplit.1 ++ ':' :: '/' :: '/' :: run,
                 r3.dropWhile isUrlChar)
    | _ => Option.none
  | _ => Option.none

/-- Scan for all non-overlapping matches left to right, as re.findall
does: try to match at the current position; on success continue after the
match, on failure advance one character. The fuel starts at the length of
the input and every step consumes at least one character while spending
one unit of fuel, so the fuel never runs out before the input does. -/
def findallGo : Nat → List Char → List (List Char)
  | 0, _ => []
  | _ + 1, [] => []
  | fuel + 1, c :: cs =>
    match matchUrlAt (c :: cs) with
    | some (m, rest) => m :: findallGo fuel rest
    | Option.none => findallGo fuel cs

/-- re.findall of the URL pattern over a message text (line 199 of the
source). -/
def findall_urls (text : List Char) : List (List Char) :=
  findallGo text.length text

/-- The externally visible effects a run of download_media performs, in
order: creating the destination directory, printing the no-matching-messages
notice, opening extracted_links.txt for writing (which truncates it),
writing one line to it, printing the skip notice for an existing file,
calling the external download for one message, and closing the links file. -/
inductive Event where
  | mkdirEntityDir
  | printNoMatching
  | openLinksFile
  | writeLink (url : String)
  | printSkip (fileName : String)
  | downloadMedia
  | closeLinksFile
deriving DecidableEq

/-- The contribution of one message to the run: its events in order, and
the increments to the downloaded and skipped counters. -/
structure StepResult where
  events : List Event
  downloaded : Nat
  skipped : Nat
deriving DecidableEq

/-- The test media_type in ['all', 'photos', 'documents', 'gifs'] at line
174 of the source. -/
def isPhotoDocType : MediaType → Bool
  | MediaType.all => true
  | MediaType.photos => true
  | MediaType.documents => true
  | MediaType.gifs => true
  | MediaType.links => false

/-- The test media_type in ['all', 'links'] at lines 193 and 198 of the
source, which is also the condition under which extracted_links.txt is
opened at line 165. -/
def isLinksType : MediaType → Bool
  | MediaType.all => true
  | MediaType.links => true
  | _ => false

/-- Python truthiness of message.media at line 171: falsy only when the
message has no media. -/
def mediaTruthy : Media → Bool
  | Media.noMedia => false
  | _ => true

/-- The isinstance test against MessageMediaPhoto and MessageMediaDocument
at line 172 of the source. -/
def isPhotoOrDocument : Media → Bool
  | Media.photo => true
  | Media.document _ => true
  | _ => false

/-- getattr(message.media, 'document', None) at line 176: only document
media carries a document attribute; photos yield None. -/
def getDocAttrs : Media → Option (List (Option String))
  | Media.document doc => doc
  | _ => Option.none

/-- The inner attribute loop of lines 178-184 of the source: the file
names of those attributes whose file_name is truthy and already present in
the destination folder. Each one triggers a skip print and a skipped
increment. The continue at line 184 only moves to the next attribute, so
this loop never prevents the download below it. -/
def attrSkips (existing : List String) (attrs : List (Option String)) : List String :=
  attrs.filterMap
    (fun a =>
      match a with
      | some name => if name != "" && existing.contains name then some name else Option.none
      | Option.none => Option.none)

/-- The body of the message loop of lines 168-202 of the source for one
message, given the media type, the file names already present in the
destination folder, and whether extracted_links.txt is open (linksOpen,
the truthiness of links_file). Faithful to the source: after the inner
attribute loop records its skips, the download at line 187 runs
unconditionally and is counted when the external call returns a truthy
path. -/
def processMessage (mediaType : MediaType) (existing : List String) (linksOpen : Bool)
    (msg : Message) : StepResult :=
  let mediaStep : StepResult :=
    if mediaTruthy msg.media then
      if isPhotoOrDocument msg.media then
        if isPhotoDocType mediaType then
          let skips : List String :=
            match getDocAttrs msg.media with
            | some attrs => attrSkips existing attrs
            | Option.none => []
          let dl : Nat := if pyTruthyStr msg.downloadResult then 1 else 0
          { events := skips.map Event.printSkip ++ [Event.downloadMedia],
            downloaded := dl, skipped := skips.length }
        else
          { events := [], downloaded := 0, skipped := 0 }
      else
        match msg.media with
        | Media.webpage url =>
          if pyTruthyStr url && isLinksType mediaType && linksOpen then
            { events := [Event.writeLink (url.getD "")], downloaded := 1, skipped := 0 }
          else
            { events := [], downloaded := 0, skipped := 0 }
        | _ => { events := [], downloaded := 0, skipped := 0 }
    else
      { events := [], downloaded := 0, skipped := 0 }
  let textStep : StepResult :=
    if pyTruthyStr msg.text && isLinksType mediaType && linksOpen then
      let urls := (findall_urls (msg.text.getD "").data).map (fun cs => String.mk cs)
      { events := urls.map Event.writeLink, downloaded := urls.length, skipped := 0 }
    else
      { events := [], downloaded := 0, skipped := 0 }
  { events := mediaStep.events ++ textStep.events,
    downloaded := mediaStep.downloaded + textStep.downloaded,
    skipped := mediaStep.skipped + textStep.skipped }

/-- The outcome of one download_media run: its events in order and the two
totals it reports. -/
structure RunResult where
  events : List Event
  downloaded : Nat
  skipped : Nat
deriving DecidableEq

/-- download_media of lines 107-212 of the source, for a resolved
conversation: creates the destination directory, fetches and filters the
messages, and either reports no matching messages, or opens
extracted_links.txt when the media type is links or all, processes each
message in fetch order, closes the file, and totals the counters. The
directory creation at line 125 precedes the fetch and the empty check. -/
def download_media (mediaType : MediaType) (limit offsetDate : Option Int)
    (filt : Option (Message → Bool)) (contains : Option String)
    (history : List Message) (existing : List String) : RunResult :=
  let msgs := candidate_messages limit offsetDate filt contains history
  if msgs.isEmpty then
    { events := [Event.mkdirEntityDir, Event.printNoMatching], downloaded := 0, skipped := 0 }
  else
    let linksOpen := isLinksType mediaType
    let steps := msgs.map (processMessage mediaType existing linksOpen)
    { events := Event.mkdirEntityDir ::
        ((if linksOpen then [Event.openLinksFile] else []) ++
          (steps.map StepResult.events).flatten ++
          (if linksOpen then [Event.closeLinksFile] else [])),
      downloaded := (steps.map StepResult.downloaded).sum,
      skipped := (steps.map StepResult.skipped).sum }

/-- The three credential environment variables read at lines 33-35 of the
source. -/
structure Env where
  apiId : Option String
  apiHash : Option String
  phone : Option String
deriving DecidableEq

/-- The parsed command-line arguments of lines 222-234 of the source. -/
structure Args where
  list : Bool
  download : Bool
  entityId : Option Int
  mediaType : MediaType
  limit : Int
  days : Option Int
  contains : Option String
  downloadDir : String
deriving DecidableEq

/-- The argparse defaults: no action flags, media type all, limit 100,
download directory downloads. -/
def argsDefaults : Args :=
  { list := false, download := false, entityId := Option.none,
    mediaType := MediaType.all, limit := 100, days := Option.none,
    contains := Option.none, downloadDir := "downloads" }

/-- The top-level operations main can perform, in order: printing the
missing-credentials error, connecting the client, listing dialogs,
printing the missing-entity-id error, running a download job, printing
the argparse help, disconnecting. -/
inductive MainAction where
  | printCredError
  | connect
  | listDialogs
  | printEntityIdError
  | runDownload
  | printHelp
  | disconnect
deriving DecidableEq

/-- The control flow of main (lines 220-288 of the source) on its success
path: if any credential is falsy, print the error and return before
constructing the client — no connection, listing or download happens;
otherwise connect, dispatch on the action flags (with the entity-id check
of lines 260-263), and disconnect in the finally block. The source names
this function main; Lean reserves that name for executable entry points,
hence main_run. -/
def main_run (env : Env) (args : Args) : List MainAction :=
  if !(pyTruthyStr env.apiId && pyTruthyStr env.apiHash && pyTruthyStr env.phone) then
    [MainAction.printCredError]
  else
    let body : List MainAction :=
      if args.list then
        [MainAction.listDialogs]
      else if args.download then
        if !pyTruthyInt args.entityId then
          [MainAction.printEntityIdError, MainAction.listDialogs]
        else
          [MainAction.runDownload]
      else
        [MainAction.printHelp]
    MainAction.connect :: body ++ [MainAction.disconnect]

/-- How the asyncio.run(main()) call at lines 290-297 of the source ends:
normally, by a KeyboardInterrupt, or by any other exception carrying a
message. -/
inductive RunOutcome where
  | normal
  | keyboardInterrupt
  | error (message : String)
deriving DecidableEq

/-- What the process prints at top level and the status it exits with. -/
structure ExitBehavior where
  output : List String
  exitCode : Nat
deriving DecidableEq

/-- The top-level exception handling of lines 290-297 of the source:
KeyboardInterrupt prints the cancellation notice and falls off the end of
the script (exit status 0); any other exception prints its message and
calls sys.exit(1); a normal return exits with status 0. -/
def top_level (outcome : RunOutcome) : ExitBehavior :=
  match outcome with
  | RunOutcome.normal => { output := [], exitCode := 0 }
  | RunOutcome.keyboardInterrupt =>
    { output := ["\nOperation cancelled by user."], exitCode := 0 }
  | RunOutcome.error m =>
    { output := ["\nError: " ++ m], exitCode := 1 }

theorem mem_of_mem_filterContains {contains : Option String} {msgs : List Message}
    {m : Message} (h : m ∈ filterContains contains msgs) : m ∈ msgs := by
  unfold filterContains at h
  split at h
  · exact List.mem_of_mem_filter h
  · exact h

theorem date_of_mem_get_messages {history : List Message} {limit : Option Int}
    {filt : Option (Message → Bool)} {d : Int} {m : Message}
    (h : m ∈ get_messages history limit (some d) filt) : d ≤ m.date := by
  unfold get_messages at h
  have h2 : m ∈ apply_offset_date (some d) (apply_media_filter filt history) := by
    cases limit with
    | none => exact h
    | some l => exact List.take_subset _ _ h
  unfold apply_offset_date at h2
  exact of_decide_eq_true (List.mem_filter.mp h2).2

/-- A document message whose attribute names a file already present in the
destination folder, and whose download call would return a path. -/
def msgExistingDoc : Message :=
  { date := 0, text := Option.none,
    media := Media.document (some [some "report.pdf"]),
    downloadResult := some "downloads/report.pdf" }

/-- C1: the claim says a document whose filename already exists in the
destination folder is never re-downloaded and is counted only as skipped.
The code contradicts this: the continue at line 184 of the source exits
only the inner attribute loop, so after printing the skip notice and
incrementing the skipped counter, the download at line 187 still runs and
the downloaded counter is also incremented. This theorem evaluates the
embedded download_media at such an input: the run both skips and downloads
the same message, ending with downloaded = 1 and skipped = 1 and a
download event after the skip print. -/
theorem c1_existing_file_still_downloaded :
    download_media MediaType.all (some 100) Option.none Option.none Option.none
        [msgExistingDoc] ["report.pdf"] =
      { events := [Event.mkdirEntityDir, Event.openLinksFile,
                   Event.printSkip "report.pdf", Event.downloadMedia,
                   Event.closeLinksFile],
        downloaded := 1, skipped := 1 } ∧
    (download_media MediaType.all (some 100) Option.none Option.none Option.none
        [msgExistingDoc] ["report.pdf"]).downloaded ≠ 0 := by
  refine ⟨by decide, by decide⟩

/-- C2: with --days N for positive N, every message the download loop can
process (after the fetch with the computed offset date and the contains
filter) has a timestamp at or after now minus N days; older messages are
excluded whatever the media filter, the limit and the contains argument
are. The external fetch is modelled from the spec. -/
theorem c2_days_cutoff (now N : Int) (hN : 0 < N)
    (limit : Option Int) (filt : Option (Message → Bool)) (contains : Option String)
    (history : List Message) (m : Message)
    (hm : m ∈ candidate_messages limit (compute_offset_date now (some N)) filt
      contains history) :
    now - N * 86400 ≤ m.date := by
  have hN0 : N ≠ 0 := ne_of_gt hN
  have hod : compute_offset_date now (some N) = some (now - N * 86400) := by
    simp [compute_offset_date, hN0]
  rw [hod] at hm
  exact date_of_mem_get_messages (mem_of_mem_filterContains hm)

/-- A message recent enough to pass a one-day cutoff taken at time 1000000. -/
def msgRecent : Message :=
  { date := 999999, text := Option.none, media := Media.noMedia,
    downloadResult := Option.none }

theorem c2_days_cutoff_witness :
    (0 : Int) < 1 ∧
    msgRecent ∈ candidate_messages Option.none (compute_offset_date 1000000 (some 1))
      Option.none Option.none [msgRecent] ∧
    (1000000 : Int) - 1 * 86400 ≤ msgRecent.date :=
  ⟨by decide, by decide,
    c2_days_cutoff 1000000 1 (by decide) Option.none Option.none Option.none
      [msgRecent] msgRecent (by decide)⟩

/-- C3: the limit conversion of line 271 of the source maps the
command-line value 0 to no limit at all — and the spec-modelled fetch with
no limit returns every matching message, rather than zero messages — while
every other integer maps to itself. -/
theorem c3_limit_zero_unbounded :
    actual_limit 0 = Option.none ∧
    (∀ L : Int, L ≠ 0 → actual_limit L = some L) ∧
    (∀ msgs : List Message, apply_limit Option.none msgs = msgs) := by
  refine ⟨rfl, fun L hL => ?_, fun msgs => rfl⟩
  simp [actual_limit, hL]

theorem c3_limit_zero_unbounded_witness :
    (7 : Int) ≠ 0 ∧ actual_limit 7 = some 7 :=
  ⟨by decide, c3_limit_zero_unbounded.2.1 7 (by decide)⟩

/-- C4: with a non-empty contains argument, a fetched message is retained
if and only if its text is truthy and contains the argument
case-insensitively; in particular a message with no text is never
retained. -/
theorem c4_contains_filter (c : String) (hc : c ≠ "") (msgs : List Message) (m : Message) :
    (m ∈ filterContains (some c) msgs ↔
      m ∈ msgs ∧ pyTruthyStr m.text = true ∧ lowerContains c (m.text.getD "") = true) ∧
    (m.text = Option.none → m ∉ filterContains (some c) msgs) := by
  have htr : pyTruthyStr (some c) = true := by simp [pyTruthyStr, hc]
  have hiff : m ∈ filterContains (some c) msgs ↔
      m ∈ msgs ∧ pyTruthyStr m.text = true ∧ lowerContains c (m.text.getD "") = true := by
    simp [filterContains, htr, List.mem_filter, Bool.and_eq_true, and_assoc]
  refine ⟨hiff, fun hnone hmem => ?_⟩
  have h2 := (hiff.mp hmem).2.1
  rw [hnone] at h2
  simp [pyTruthyStr] at h2

/-- A message whose text holds the word cat in capitals. -/
def msgCat : Message :=
  { date := 0, text := some "My CAT is here", media := Media.noMedia,
    downloadResult := Option.none }

theorem c4_contains_filter_witness :
    ("cat" : String) ≠ "" ∧
    ((msgCat ∈ filterContains (some "cat") [msgCat] ↔
        msgCat ∈ [msgCat] ∧ pyTruthyStr msgCat.text = true ∧
          lowerContains "cat" (msgCat.text.getD "") = true) ∧
      (msgCat.text = Option.none → msgCat ∉ filterContains (some "cat") [msgCat])) :=
  ⟨by decide, c4_contains_filter "cat" (by decide) [msgCat] msgCat⟩

/-- C5: when no messages remain after fetching and filtering, the run
performs exactly the directory creation and the no-matching-messages
notice: it writes nothing, and in particular never opens (and so never
truncates) extracted_links.txt and never writes a link line. -/
theorem c5_no_matching_no_writes (mediaType : MediaType) (limit offsetDate : Option Int)
    (filt : Option (Message → Bool)) (contains : Option String)
    (history : List Message) (existing : List String)
    (h : candidate_messages limit offsetDate filt contains history = []) :
    download_media mediaType limit offsetDate filt contains history existing =
      { events := [Event.mkdirEntityDir, Event.printNoMatching],
        downloaded := 0, skipped := 0 } ∧
    Event.openLinksFile ∉
      (download_media mediaType limit offsetDate filt contains history existing).events ∧
    ∀ s, Event.writeLink s ∉
      (download_media mediaType limit offsetDate filt contains history existing).events := by
  have heq : download_media mediaType limit offsetDate filt contains history existing =
      { events := [Event.mkdirEntityDir, Event.printNoMatching],
        downloaded := 0, skipped := 0 } := by
    simp [download_media, h]
  refine ⟨heq, ?_, fun s => ?_⟩ <;> simp [heq]

theorem c5_no_matching_no_writes_witness :
    candidate_messages (some 100) Option.none Option.none Option.none
      ([] : List Message) = [] ∧
    (download_media MediaType.all (some 100) Option.none Option.none Option.none [] [] =
        { events := [Event.mkdirEntityDir, Event.printNoMatching],
          downloaded := 0, skipped := 0 } ∧
      Event.openLinksFile ∉
        (download_media MediaType.all (some 100) Option.none Option.none Option.none
          [] []).events ∧
      ∀ s, Event.writeLink s ∉
        (download_media MediaType.all (some 100) Option.none Option.none Option.none
          [] []).events) :=
  ⟨rfl, c5_no_matching_no_writes MediaType.all (some 100) Option.none Option.none
    Option.none [] [] rfl⟩

/-- A message carrying web-page media with a URL whose text also holds two
distinct free-text URLs. -/
def msgWebpageTwoUrls : Message :=
  { date := 0, text := some "see http://b.com and http://c.com",
    media := Media.webpage (some "http://a.com"), downloadResult := Option.none }

/-- C6 counterexample: a processed message whose text holds exactly two
distinct URL pattern matches, under media type links, for which the
counter rises by 3 and not by 2 — the web-page media of the message also
appends its page URL (line 194 of the source), so the claim as stated is
false for this message. -/
theorem c6_two_urls_count_can_exceed_two :
    (findall_urls ("see http://b.com and http://c.com" : String).data).map
        (fun cs => String.mk cs) = ["http://b.com", "http://c.com"] ∧
    ("http://b.com" : String) ≠ "http://c.com" ∧
    isLinksType MediaType.links = true ∧
    processMessage MediaType.links [] true msgWebpageTwoUrls =
      { events := [Event.writeLink "http://a.com", Event.writeLink "http://b.com",
                   Event.writeLink "http://c.com"],
        downloaded := 3, skipped := 0 } ∧
    (processMessage MediaType.links [] true msgWebpageTwoUrls).downloaded ≠ 2 := by
  refine ⟨by decide, by decide, rfl, by decide, by decide⟩

/-- C6 as amended: for a processed message with no media attachment whose
truthy text holds exactly two distinct URL pattern matches, when the media
type is links or all (so the links file is open), both URLs are written to
extracted_links.txt as separate lines, in order, and the counter rises by
exactly 2 for that message. -/
theorem c6_two_text_urls_appended (mediaType : MediaType) (existing : List String)
    (m : Message) (t u1 u2 : String)
    (hl : isLinksType mediaType = true)
    (hmedia : m.media = Media.noMedia)
    (ht : m.text = some t)
    (hne : t ≠ "")
    (hu : (findall_urls t.data).map (fun cs => String.mk cs) = [u1, u2])
    (_hdist : u1 ≠ u2) :
    processMessage mediaType existing true m =
      { events := [Event.writeLink u1, Event.writeLink u2],
        downloaded := 2, skipped := 0 } := by
  simp [processMessage, hmedia, ht, mediaTruthy, pyTruthyStr, hne, hl, hu]

/-- A message with no media whose text holds exactly two URLs. -/
def msgTwoUrls : Message :=
  { date := 0, text := some "http://a.b and http://c.d",
    media := Media.noMedia, downloadResult := Option.none }

theorem c6_two_text_urls_appended_witness :
    isLinksType MediaType.links = true ∧
    msgTwoUrls.media = Media.noMedia ∧
    msgTwoUrls.text = some "http://a.b and http://c.d" ∧
    ("http://a.b and http://c.d" : String) ≠ "" ∧
    (findall_urls ("http://a.b and http://c.d" : String).data).map
      (fun cs => String.mk cs) = ["http://a.b", "http://c.d"] ∧
    ("http://a.b" : String) ≠ "http://c.d" ∧
    processMessage MediaType.links [] true msgTwoUrls =
      { events := [Event.writeLink "http://a.b", Event.writeLink "http://c.d"],
        downloaded := 2, skipped := 0 } :=
  ⟨rfl, rfl, rfl, by decide, by decide, by decide,
    c6_two_text_urls_appended MediaType.links [] msgTwoUrls
      "http://a.b and http://c.d" "http://a.b" "http://c.d"
      rfl rfl rfl (by decide) (by decide) (by decide)⟩

/-- C7: at top level, a KeyboardInterrupt prints the cancellation notice
and the process ends with status 0 (not the error status), while any other
uncaught exception prints its message and the process exits with the
failure status 1. -/
theorem c7_top_level_exit :
    (top_level RunOutcome.keyboardInterrupt).output =
      ["\nOperation cancelled by user."] ∧
    (top_level RunOutcome.keyboardInterrupt).exitCode = 0 ∧
    ∀ m : String,
      (top_level (RunOutcome.error m)).output = ["\nError: " ++ m] ∧
      (top_level (RunOutcome.error m)).exitCode = 1 ∧
      (top_level (RunOutcome.error m)).exitCode ≠ 0 :=
  ⟨rfl, rfl, fun m => ⟨rfl, rfl, by simp [top_level]⟩⟩

/-- C8: when any one of the three credentials is absent from the
environment, main prints the descriptive credential error and returns
at once: its action trace holds that print alone, so no connection is
attempted and no listing or download runs. -/
theorem c8_missing_credentials (env : Env) (args : Args)
    (h : env.apiId = Option.none ∨ env.apiHash = Option.none ∨ env.phone = Option.none) :
    main_run env args = [MainAction.printCredError] ∧
    MainAction.connect ∉ main_run env args ∧
    MainAction.listDialogs ∉ main_run env args ∧
    MainAction.runDownload ∉ main_run env args := by
  have heq : main_run env args = [MainAction.printCredError] := by
    rcases h with h | h | h <;> simp [main_run, h, pyTruthyStr]
  refine ⟨heq, ?_, ?_, ?_⟩ <;> simp [heq]

/-- An environment with the API identifier unset and the other two
credentials present. -/
def envNoApiId : Env :=
  { apiId := Option.none, apiHash := some "hash", phone := some "phone" }

theorem c8_missing_credentials_witness :
    (envNoApiId.apiId = Option.none ∨ envNoApiId.apiHash = Option.none ∨
      envNoApiId.phone = Option.none) ∧
    (main_run envNoApiId argsDefaults = [MainAction.printCredError] ∧
      MainAction.connect ∉ main_run envNoApiId argsDefaults ∧
      MainAction.listDialogs ∉ main_run envNoApiId argsDefaults ∧
      MainAction.runDownload ∉ main_run envNoApiId argsDefaults) :=
  ⟨Or.inl rfl, c8_missing_credentials envNoApiId argsDefaults (Or.inl rfl)⟩

/-- C9: when the contains argument is the empty string, the truthiness
test at line 151 of the source fails, so the text filter is not applied at
all and the fetched list passes through unchanged — messages with no text
included. -/
theorem c9_empty_contains_passthrough (msgs : List Message) :
    filterContains (some "") msgs = msgs := by
  simp [filterContains, pyTruthyStr]

/-- C10: the destination directory is created at line 125 of the source,
before the fetch and before the empty-result check, so the very first
event of every download_media run — the zero-matching-messages run
included — is the directory creation. -/
theorem c10_entity_dir_created_first (mediaType : MediaType)
    (limit offsetDate : Option Int) (filt : Option (Message → Bool))
    (contains : Option String) (history : List Message) (existing : List String) :
    (download_media mediaType limit offsetDate filt contains history
        existing).events.head? = some Event.mkdirEntityDir := by
  by_cases hc : (candidate_messages limit offsetDate filt contains history).isEmpty
  · simp [download_media, hc]
  · simp [download_media, hc]
